import Mathlib

/-
Verification of the ClaudeSync OpenAI-compatibility shim.

This file shallowly embeds the translation and request-handling logic of the
repository (src/api_routes.py, src/auth_routes.py,
src/src/claudesync/providers/claude_ai.py) and proves or refutes the frozen
claims about it.  Texts are modelled as `List Char`; Python dicts carrying
JSON data are modelled by the `JsonValue` inductive; Python exceptions that
escape a handler are modelled by `PyOutcome.exn`.
-/

set_option autoImplicit false

namespace ClaudeSync

/-- Shorthand for the character-list representation of texts. -/
abbrev Chars := List Char

/-- Turn a string literal into its character list. -/
def chars (s : String) : Chars := s.data

/-! ## Python `str.strip()`

`remove_function_call_block` ends with `.strip()` (src/api_routes.py line 74).
Python strips characters for which `str.isspace()` holds; we model the
ASCII/Latin-1 portion of that set (the claims only exercise ASCII texts). -/

/-- Characters removed by Python `str.strip()` (ASCII/Latin-1 range). -/
def isPySpace (c : Char) : Bool :=
  c == ' ' || c == '\t' || c == '\n' || c == '\r' || c == '\x0b' || c == '\x0c'
    || c == '\x1c' || c == '\x1d' || c == '\x1e' || c == '\x1f'
    || c == '\x85' || c == '\xa0'

/-- Python `s.strip()`: drop leading and trailing whitespace. -/
def pyStrip (s : Chars) : Chars :=
  ((s.dropWhile isPySpace).reverse.dropWhile isPySpace).reverse

/-! ## The fenced function-call block regex

src/api_routes.py lines 56-74 use the pattern
`\x60\x60\x60function\n(.*?)\n\x60\x60\x60` with `re.DOTALL`.
`re.search` finds the leftmost match, taking the shortest (non-greedy)
interior; `re.sub` replaces every non-overlapping match, scanning left to
right.  We model the pattern directly: `findMatch` returns the text before
the first match, the interior of the capture group, and the text after the
match. -/

/-- The opening fence of the pattern: three backticks, `function`, newline. -/
def fenceOpen : Chars := chars "```function\n"

/-- The closing fence of the pattern: newline then three backticks. -/
def fenceClose : Chars := chars "\n```"

/-- Scan for the earliest occurrence of the closing fence (the non-greedy
interior of `(.*?)`): returns the interior before the fence and the text
after it. -/
def splitClose : Chars → Option (Chars × Chars)
  | [] => none
  | c :: cs =>
    if fenceClose.isPrefixOf (c :: cs) then
      some ([], (c :: cs).drop fenceClose.length)
    else
      match splitClose cs with
      | some (mid, rest) => some (c :: mid, rest)
      | none => none

/-- Leftmost match of the fenced-block pattern, as `re.search` finds it:
`some (pre, mid, rest)` splits the input as
`pre ++ fenceOpen ++ mid ++ fenceClose ++ rest`. -/
def findMatch : Chars → Option (Chars × Chars × Chars)
  | [] => none
  | c :: cs =>
    if fenceOpen.isPrefixOf (c :: cs) then
      match splitClose ((c :: cs).drop fenceOpen.length) with
      | some (mid, rest) => some ([], mid, rest)
      | none =>
        match findMatch cs with
        | some (pre, mid, rest) => some (c :: pre, mid, rest)
        | none => none
    else
      match findMatch cs with
      | some (pre, mid, rest) => some (c :: pre, mid, rest)
      | none => none

theorem splitClose_rest_lt (s mid rest : Chars) (h : splitClose s = some (mid, rest)) :
    rest.length < s.length := by
  induction s generalizing mid rest with
  | nil => simp [splitClose] at h
  | cons c cs ih =>
    rw [splitClose] at h
    by_cases hp : fenceClose.isPrefixOf (c :: cs)
    · simp only [hp, if_true, Option.some.injEq, Prod.mk.injEq] at h
      obtain ⟨-, hr⟩ := h
      rw [← hr]
      have hlen : 0 < fenceClose.length := by decide
      simp only [List.length_drop, List.length_cons]
      omega
    · simp only [hp, if_false] at h
      cases hrec : splitClose cs with
      | none => rw [hrec] at h; exact absurd h (by simp)
      | some p =>
        obtain ⟨mid2, rest2⟩ := p
        rw [hrec] at h
        simp only [Option.some.injEq, Prod.mk.injEq] at h
        obtain ⟨-, rfl⟩ := h
        have := ih mid2 rest hrec
        simp only [List.length_cons]
        omega

theorem findMatch_rest_lt (s pre mid rest : Chars)
    (h : findMatch s = some (pre, mid, rest)) : rest.length < s.length := by
  induction s generalizing pre mid rest with
  | nil => simp [findMatch] at h
  | cons c cs ih =>
    rw [findMatch] at h
    by_cases hp : fenceOpen.isPrefixOf (c :: cs)
    · simp only [hp, if_true] at h
      cases hsc : splitClose ((c :: cs).drop fenceOpen.length) with
      | some p =>
        obtain ⟨mid2, rest2⟩ := p
        rw [hsc] at h
        injection h with h2
        have hr : rest2 = rest := congrArg (fun q => q.2.2) h2
        rw [← hr]
        have hlt := splitClose_rest_lt _ _ _ hsc
        have hdrop : ((c :: cs).drop fenceOpen.length).length ≤ (c :: cs).length := by
          simp [List.length_drop]
        exact lt_of_lt_of_le hlt hdrop
      | none =>
        rw [hsc] at h
        cases hfm : findMatch cs with
        | none => rw [hfm] at h; exact absurd h (by simp)
        | some p =>
          obtain ⟨pre2, mid2, rest2⟩ := p
          rw [hfm] at h
          injection h with h2
          have hr : rest2 = rest := congrArg (fun q => q.2.2) h2
          rw [← hr]
          have := ih pre2 mid2 rest2 hfm
          simp only [List.length_cons]
          omega
    · simp only [hp, if_false] at h
      cases hfm : findMatch cs with
      | none => rw [hfm] at h; exact absurd h (by simp)
      | some p =>
        obtain ⟨pre2, mid2, rest2⟩ := p
        rw [hfm] at h
        injection h with h2
        have hr : rest2 = rest := congrArg (fun q => q.2.2) h2
        rw [← hr]
        have := ih pre2 mid2 rest2 hfm
        simp only [List.length_cons]
        omega

/-- Fueled worker for `re.sub`: each successful match strictly shortens the
remaining text, so fuel `s.length` always suffices (`removeAllAux_fuel`). -/
def removeAllAux : Nat → Chars → Chars
  | 0, s => s
  | fuel + 1, s =>
    match findMatch s with
    | none => s
    | some (pre, _, rest) => pre ++ removeAllAux fuel rest

/-- `re.sub(pattern, empty, text)`: remove every non-overlapping match,
scanning left to right (src/api_routes.py line 74). -/
def removeAllMatches (s : Chars) : Chars := removeAllAux s.length s

theorem removeAllAux_nil (fuel : Nat) : removeAllAux fuel [] = [] := by
  cases fuel with
  | zero => rfl
  | succ n => rfl

theorem removeAllAux_succ (fuel : Nat) (s : Chars) :
    removeAllAux (fuel + 1) s =
      match findMatch s with
      | none => s
      | some (pre, _, rest) => pre ++ removeAllAux fuel rest := rfl

theorem removeAllAux_fuel (n : Nat) : ∀ (m : Nat) (s : Chars),
    s.length ≤ n → s.length ≤ m → removeAllAux n s = removeAllAux m s := by
  induction n with
  | zero =>
    intro m s hn _
    have : s = [] := List.length_eq_zero.mp (Nat.le_zero.mp hn)
    subst this
    rw [removeAllAux_nil, removeAllAux_nil]
  | succ n ih =>
    intro m s hn hm
    cases m with
    | zero =>
      have : s = [] := List.length_eq_zero.mp (Nat.le_zero.mp hm)
      subst this
      rw [removeAllAux_nil, removeAllAux_nil]
    | succ m =>
      rw [removeAllAux_succ, removeAllAux_succ]
      cases hfm : findMatch s with
      | none => rfl
      | some p =>
        obtain ⟨pre, mid, rest⟩ := p
        have hlt := findMatch_rest_lt s pre mid rest hfm
        have h1 : rest.length ≤ n := by omega
        have h2 : rest.length ≤ m := by omega
        dsimp only
        rw [ih m rest h1 h2]

/-- `remove_function_call_block` (src/api_routes.py lines 72-74):
substitute all matches away, then `.strip()`. -/
def remove_function_call_block (s : Chars) : Chars :=
  pyStrip (removeAllMatches s)

/-- Modelled from the claim's words (not the source): remove only the first
match — the one `parse_claude_response` uses — then strip.  Compared against
`remove_function_call_block` to settle claim C2. -/
def stripFirstMatchOnly (s : Chars) : Chars :=
  match findMatch s with
  | none => pyStrip s
  | some (pre, _, rest) => pyStrip (pre ++ rest)

theorem removeAllAux_of_none {s : Chars} (fuel : Nat) (h : findMatch s = none) :
    removeAllAux fuel s = s := by
  cases fuel with
  | zero => rfl
  | succ n => rw [removeAllAux_succ, h]

theorem removeAllMatches_of_none {s : Chars} (h : findMatch s = none) :
    removeAllMatches s = s :=
  removeAllAux_of_none _ h

theorem removeAllMatches_of_some {s pre mid rest : Chars}
    (h : findMatch s = some (pre, mid, rest)) :
    removeAllMatches s = pre ++ removeAllMatches rest := by
  unfold removeAllMatches
  have hlt := findMatch_rest_lt s pre mid rest h
  cases hl : s.length with
  | zero =>
    have hs : s = [] := List.length_eq_zero.mp hl
    subst hs
    simp [findMatch] at h
  | succ n =>
    rw [removeAllAux_succ, h]
    dsimp only
    congr 1
    exact removeAllAux_fuel n rest.length rest (by omega) (le_refl _)

/-! ## JSON values

`parse_claude_response` calls `json.loads` on the block interior and the
handler re-serialises the arguments with `json.dumps`
(src/api_routes.py lines 63, 200).  `JsonValue` models the Python values
`json.loads` can produce.  Numbers without a fraction or exponent become
Python ints (`jint`); other numeric literals (floats, `NaN`, `Infinity`)
are kept as their lexeme (`jfloat`) — exact float semantics are out of the
embedding's scope and no claim depends on them. -/

inductive JsonValue where
  | jnull
  | jbool (b : Bool)
  | jint (n : Int)
  | jfloat (lex : List Char)
  | jstr (s : List Char)
  | jarr (elems : List JsonValue)
  | jobj (members : List (List Char × JsonValue))

/-- Python `dict.get` over the members of a parsed JSON object: when the
source text held duplicate keys, the later value wins, as in `dict`. -/
def objGet : List (Chars × JsonValue) → Chars → Option JsonValue
  | [], _ => none
  | (k, v) :: rest, key =>
    match objGet rest key with
    | some v2 => some v2
    | none => if k = key then some v else none

/-- Python `dict.get(key, default)`. -/
def objGetD (ms : List (Chars × JsonValue)) (key : Chars) (d : JsonValue) : JsonValue :=
  (objGet ms key).getD d

/-- Whether a `JsonValue` is a Python dict. -/
def JsonValue.isObj : JsonValue → Bool
  | .jobj _ => true
  | _ => false

/-! ### Parsing (`json.loads`)

A strict JSON parser mirroring Python's `json` module defaults: standard
whitespace, strict strings (unescaped control characters rejected), the
number grammar `-?(0|[1-9][0-9]*)(\.[0-9]+)?([eE][+-]?[0-9]+)?`, plus the
Python extensions `NaN`, `Infinity`, `-Infinity`.  Parsing is fueled; the
fuel passed by `json_loads` strictly dominates the number of recursive
steps any input of that length can need.  A lone `\uXXXX` surrogate (which
Python keeps as an unpaired surrogate code unit) is mapped to U+FFFD, since
Lean `Char` cannot carry it; no claim exercises this corner. -/

/-- JSON whitespace accepted between tokens. -/
def isJsonWs (c : Char) : Bool := c == ' ' || c == '\t' || c == '\n' || c == '\r'

/-- Skip JSON whitespace. -/
def skipWs (s : Chars) : Chars := s.dropWhile isJsonWs

/-- Decimal digit test. -/
def isDigitCh (c : Char) : Bool := '0' ≤ c && c ≤ '9'

/-- Value of a hexadecimal digit. -/
def hexDigitVal (c : Char) : Option Nat :=
  if '0' ≤ c && c ≤ '9' then some (c.toNat - 48)
  else if 'a' ≤ c && c ≤ 'f' then some (c.toNat - 87)
  else if 'A' ≤ c && c ≤ 'F' then some (c.toNat - 55)
  else none

/-- Prepend a decoded character to a string-body parse result. -/
def consStr (c : Char) : Option (Chars × Chars) → Option (Chars × Chars)
  | some (body, rem) => some (c :: body, rem)
  | none => none

/-- Combine four hex digits into a code unit. -/
def hexQuad (h1 h2 h3 h4 : Char) : Option Nat :=
  match hexDigitVal h1, hexDigitVal h2, hexDigitVal h3, hexDigitVal h4 with
  | some a, some b, some c, some d => some (a * 4096 + b * 256 + c * 16 + d)
  | _, _, _, _ => none

/-- Parse a JSON string body after the opening quote; returns the decoded
content and the text after the closing quote. -/
def parseStringBody : Nat → Chars → Option (Chars × Chars)
  | 0, _ => none
  | _ + 1, [] => none
  | fuel + 1, c :: rest =>
    if c == '"' then some ([], rest)
    else if c == '\\' then
      match rest with
      | [] => none
      | e :: rest2 =>
        if e == '"' then consStr '"' (parseStringBody fuel rest2)
        else if e == '\\' then consStr '\\' (parseStringBody fuel rest2)
        else if e == '/' then consStr '/' (parseStringBody fuel rest2)
        else if e == 'b' then consStr '\x08' (parseStringBody fuel rest2)
        else if e == 'f' then consStr '\x0c' (parseStringBody fuel rest2)
        else if e == 'n' then consStr '\n' (parseStringBody fuel rest2)
        else if e == 'r' then consStr '\r' (parseStringBody fuel rest2)
        else if e == 't' then consStr '\t' (parseStringBody fuel rest2)
        else if e == 'u' then
          match rest2 with
          | h1 :: h2 :: h3 :: h4 :: rest3 =>
            match hexQuad h1 h2 h3 h4 with
            | none => none
            | some n =>
              if 0xd800 ≤ n && n ≤ 0xdbff then
                match rest3 with
                | '\\' :: 'u' :: k1 :: k2 :: k3 :: k4 :: rest4 =>
                  match hexQuad k1 k2 k3 k4 with
                  | some m =>
                    if 0xdc00 ≤ m && m ≤ 0xdfff then
                      consStr (Char.ofNat (0x10000 + (n - 0xd800) * 0x400 + (m - 0xdc00)))
                        (parseStringBody fuel rest4)
                    else consStr '�' (parseStringBody fuel rest3)
                  | none => consStr '�' (parseStringBody fuel rest3)
                | _ => consStr '�' (parseStringBody fuel rest3)
              else if 0xdc00 ≤ n && n ≤ 0xdfff then
                consStr '�' (parseStringBody fuel rest3)
              else consStr (Char.ofNat n) (parseStringBody fuel rest3)
          | _ => none
        else none
    else if c.toNat < 0x20 then none
    else consStr c (parseStringBody fuel rest)

/-- Split a run of leading decimal digits. -/
def spanDigits (s : Chars) : Chars × Chars := (s.takeWhile isDigitCh, s.dropWhile isDigitCh)

/-- Numeric value of a digit run. -/
def digitsToNat (ds : Chars) : Nat := ds.foldl (fun a c => a * 10 + (c.toNat - 48)) 0

/-- Integer part per the grammar `0|[1-9][0-9]*`: a leading zero stops the
integer part (further digits are left unconsumed, as Python's regex does). -/
def parseIntPart (s : Chars) : Option (Chars × Chars) :=
  match spanDigits s with
  | ([], _) => none
  | (d :: ds, rest) =>
    if d == '0' && !ds.isEmpty then some ([d], ds ++ rest) else some (d :: ds, rest)

/-- Optional fraction `\.[0-9]+`; consumes nothing when absent. -/
def parseFrac (s : Chars) : Option (Chars × Chars) :=
  match s with
  | '.' :: rest =>
    match spanDigits rest with
    | ([], _) => none
    | (ds, rest2) => some ('.' :: ds, rest2)
  | _ => none

/-- Optional exponent `[eE][+-]?[0-9]+`; consumes nothing when absent. -/
def parseExp (s : Chars) : Option (Chars × Chars) :=
  match s with
  | e :: rest =>
    if e == 'e' || e == 'E' then
      match rest with
      | sgn :: rest2 =>
        if sgn == '+' || sgn == '-' then
          match spanDigits rest2 with
          | ([], _) => none
          | (ds, rest3) => some (e :: sgn :: ds, rest3)
        else
          match spanDigits rest with
          | ([], _) => none
          | (ds, rest3) => some (e :: ds, rest3)
      | [] => none
    else none
  | [] => none

/-- Parse a JSON number starting at the head of the input. -/
def parseNumber (s : Chars) : Option (JsonValue × Chars) :=
  let (neg, s1) := match s with
    | '-' :: t => (true, t)
    | _ => (false, s)
  match parseIntPart s1 with
  | none => none
  | some (ip, r1) =>
    let (fracLex, r2) := match parseFrac r1 with
      | some (f, r) => (f, r)
      | none => ([], r1)
    let (expLex, r3) := match parseExp r2 with
      | some (x, r) => (x, r)
      | none => ([], r2)
    if fracLex.isEmpty && expLex.isEmpty then
      let n : Int := Int.ofNat (digitsToNat ip)
      some (.jint (if neg then -n else n), r3)
    else
      some (.jfloat ((if neg then ['-'] else []) ++ ip ++ fracLex ++ expLex), r3)

mutual

/-- Parse one JSON value starting at the head of the input (whitespace
already skipped by the caller). -/
def parseValue : Nat → Chars → Option (JsonValue × Chars)
  | 0, _ => none
  | fuel + 1, s =>
    match s with
    | [] => none
    | c :: rest =>
      if c == '"' then
        match parseStringBody (fuel + 1) rest with
        | some (body, rem) => some (.jstr body, rem)
        | none => none
      else if c == '\x7b' then parseMembersStart fuel rest
      else if c == '[' then parseElemsStart fuel rest
      else if (chars "true").isPrefixOf s then some (.jbool true, s.drop 4)
      else if (chars "false").isPrefixOf s then some (.jbool false, s.drop 5)
      else if (chars "null").isPrefixOf s then some (.jnull, s.drop 4)
      else if (chars "NaN").isPrefixOf s then some (.jfloat (chars "NaN"), s.drop 3)
      else if (chars "Infinity").isPrefixOf s then some (.jfloat (chars "Infinity"), s.drop 8)
      else if (chars "-Infinity").isPrefixOf s then some (.jfloat (chars "-Infinity"), s.drop 9)
      else if c == '-' || isDigitCh c then parseNumber s
      else none

/-- Parse an object after the opening brace. -/
def parseMembersStart : Nat → Chars → Option (JsonValue × Chars)
  | 0, _ => none
  | fuel + 1, s =>
    match skipWs s with
    | '\x7d' :: rest => some (.jobj [], rest)
    | s1 => parseMembers fuel s1 []

/-- Parse the members of a non-empty object, first key expected at the
head of the input. -/
def parseMembers : Nat → Chars → List (Chars × JsonValue) → Option (JsonValue × Chars)
  | 0, _, _ => none
  | fuel + 1, s, acc =>
    match s with
    | '"' :: rest =>
      match parseStringBody (fuel + 1) rest with
      | some (key, r1) =>
        match skipWs r1 with
        | ':' :: r2 =>
          match parseValue fuel (skipWs r2) with
          | some (v, r3) =>
            match skipWs r3 with
            | ',' :: r4 => parseMembers fuel (skipWs r4) (acc ++ [(key, v)])
            | '\x7d' :: r4 => some (.jobj (acc ++ [(key, v)]), r4)
            | _ => none
          | none => none
        | _ => none
      | none => none
    | _ => none

/-- Parse an array after the opening bracket. -/
def parseElemsStart : Nat → Chars → Option (JsonValue × Chars)
  | 0, _ => none
  | fuel + 1, s =>
    match skipWs s with
    | ']' :: rest => some (.jarr [], rest)
    | s1 => parseElems fuel s1 []

/-- Parse the elements of a non-empty array, first element expected at the
head of the input. -/
def parseElems : Nat → Chars → List JsonValue → Option (JsonValue × Chars)
  | 0, _, _ => none
  | fuel + 1, s, acc =>
    match parseValue fuel s with
    | some (v, r1) =>
      match skipWs r1 with
      | ',' :: r2 => parseElems fuel (skipWs r2) (acc ++ [v])
      | ']' :: r2 => some (.jarr (acc ++ [v]), r2)
      | _ => none
    | none => none

end

/-- Python `json.loads`: parse one value, allow surrounding whitespace,
reject trailing data.  `none` models a raised `json.JSONDecodeError`. -/
def json_loads (s : Chars) : Option JsonValue :=
  match parseValue (4 * s.length + 64) (skipWs s) with
  | some (v, rest) => if skipWs rest = [] then some v else none
  | none => none

/-! ### Serialising (`json.dumps`)

Default options: separators `", "` and `": "`, `ensure_ascii=True`
(characters outside `0x20..0x7e` are `\uXXXX`-escaped, astral characters
as surrogate pairs).  Floats keep their parsed lexeme — Python would
re-format the float value, a floating-point detail outside the embedding's
scope that no claim exercises. -/

/-- Lowercase hex digit. -/
def toHexDigit (n : Nat) : Char :=
  if n < 10 then Char.ofNat (48 + n) else Char.ofNat (87 + n)

/-- Four-digit lowercase hex rendering. -/
def hex4 (n : Nat) : Chars :=
  [toHexDigit (n / 4096 % 16), toHexDigit (n / 256 % 16), toHexDigit (n / 16 % 16),
    toHexDigit (n % 16)]

/-- Escape one character as `json.dumps` does with `ensure_ascii=True`. -/
def escapeChar (c : Char) : Chars :=
  if c == '"' then ['\\', '"']
  else if c == '\\' then ['\\', '\\']
  else if c == '\n' then ['\\', 'n']
  else if c == '\r' then ['\\', 'r']
  else if c == '\t' then ['\\', 't']
  else if c == '\x08' then ['\\', 'b']
  else if c == '\x0c' then ['\\', 'f']
  else if c.toNat < 0x20 then '\\' :: 'u' :: hex4 c.toNat
  else if c.toNat ≤ 0x7e then [c]
  else if c.toNat ≤ 0xffff then '\\' :: 'u' :: hex4 c.toNat
  else
    let v := c.toNat - 0x10000
    ('\\' :: 'u' :: hex4 (0xd800 + v / 0x400)) ++ ('\\' :: 'u' :: hex4 (0xdc00 + v % 0x400))

/-- Serialise a string with quotes and escapes. -/
def jdumpStr (s : Chars) : Chars := '"' :: (s.map escapeChar).flatten ++ ['"']

mutual

/-- Python `json.dumps` with default options. -/
def jdump : JsonValue → Chars
  | .jnull => chars "null"
  | .jbool true => chars "true"
  | .jbool false => chars "false"
  | .jint n => (toString n).data
  | .jfloat lex => lex
  | .jstr s => jdumpStr s
  | .jarr elems => '[' :: (jdumpElems elems ++ [']'])
  | .jobj ms => '\x7b' :: (jdumpMembers ms ++ ['\x7d'])

/-- Array elements joined by `", "`. -/
def jdumpElems : List JsonValue → Chars
  | [] => []
  | [v] => jdump v
  | v :: w :: rest => jdump v ++ chars ", " ++ jdumpElems (w :: rest)

/-- Object members joined by `", "`, key and value joined by `": "`. -/
def jdumpMembers : List (Chars × JsonValue) → Chars
  | [] => []
  | [(k, v)] => jdumpStr k ++ chars ": " ++ jdump v
  | (k, v) :: m :: rest => jdumpStr k ++ chars ": " ++ jdump v ++ chars ", " ++ jdumpMembers (m :: rest)

end

/-- `json.dumps` applied to an optional value: Python serialises `None`
as `null`. -/
def pyJsonDumpsOpt : Option JsonValue → Chars
  | none => chars "null"
  | some v => jdump v

/-! ## `parse_claude_response` (src/api_routes.py lines 56-70)

Search for the fenced block; if found, `json.loads` the interior.  Only
`json.JSONDecodeError` is caught (returning `(None, None)`); when the
interior parses to a non-dict value, the subsequent `.get` calls raise an
`AttributeError` that escapes the function. -/

/-- Result of running a Python function: a value, or an uncaught
exception carrying a description. -/
inductive PyOutcome (α : Type) where
  | ok (val : α)
  | exn (desc : List Char)

/-- Project the normal result of a `PyOutcome`. -/
def pyOk? {α : Type} : PyOutcome α → Option α
  | .ok v => some v
  | .exn _ => none

/-- Description used for the modelled `AttributeError`; Python's message
names the concrete type (for example `int`), a detail no claim relies on. -/
def attributeErrorDesc : Chars := chars "AttributeError: no attribute \x27get\x27"

/-- `parse_claude_response(response_text)`: returns Python's
`(function_name, arguments)` pair, where `function_name` is
`data.get(name)` (absent key gives Python `None`, modelled `none`) and
`arguments` is `data.get(arguments, empty dict)`.  The no-block and
JSON-error paths return `(None, None)`. -/
def parse_claude_response (t : Chars) : PyOutcome (Option JsonValue × Option JsonValue) :=
  match findMatch t with
  | none => .ok (none, none)
  | some (_, interior, _) =>
    match json_loads interior with
    | none => .ok (none, none)
    | some (.jobj ms) =>
      .ok (objGet ms (chars "name"), some (objGetD ms (chars "arguments") (.jobj [])))
    | some _ => .exn attributeErrorDesc

/-- Python truthiness of the `function_name` value tested by
`if function_name:` (src/api_routes.py line 182).  `none` is Python `None`.
A float is falsy iff it denotes zero; its lexeme then consists of sign,
zero digits, dot and exponent only. -/
def floatLexIsZero (lex : Chars) : Bool :=
  let mant := lex.takeWhile (fun c => !(c == 'e' || c == 'E'))
  let digits := mant.filter isDigitCh
  !digits.isEmpty && digits.all (fun c => c == '0')

/-- Python truthiness of an optional JSON value. -/
def pyTruthy : Option JsonValue → Bool
  | none => false
  | some .jnull => false
  | some (.jbool b) => b
  | some (.jint n) => !(n == 0)
  | some (.jfloat lex) => !floatLexIsZero lex
  | some (.jstr s) => !s.isEmpty
  | some (.jarr l) => !l.isEmpty
  | some (.jobj ms) => !ms.isEmpty

/-! ## OpenAI-style response construction (src/api_routes.py lines 180-237)

The handler builds one of two response dicts depending on whether a truthy
function name was parsed.  `created` uses the wall clock; the current time
is passed in as `now`. -/

/-- The `function_call` member of the response message:
`name` is the parsed value (Python `None` possible only on paths that do
not build it), `arguments` is `json.dumps(arguments)`. -/
structure FunctionCallField where
  fcName : Option JsonValue
  fcArguments : Chars

/-- The `choices[0].message` dict. -/
structure ChatMessageOut where
  msgRole : Chars
  msgContent : Chars
  msgFunctionCall : Option FunctionCallField

/-- The OpenAI-style response dict (the fields the handler constructs). -/
structure OpenAIResponse where
  respId : Chars
  respObject : Chars
  respCreated : Int
  respModel : Chars
  choiceIndex : Nat
  message : ChatMessageOut
  finishReason : Chars
  promptTokens : Int
  completionTokens : Int
  totalTokens : Int

/-- Lines 180-234: parse the completion for a function call and build the
response.  An uncaught exception from `parse_claude_response` propagates. -/
def build_openai_response (chatId modelName : Chars) (now : Int) (responseContent : Chars) :
    PyOutcome OpenAIResponse :=
  match parse_claude_response responseContent with
  | .exn d => .exn d
  | .ok (functionName, functionArgs) =>
    if pyTruthy functionName then
      .ok
        { respId := chars "chatcmpl-" ++ chatId
          respObject := chars "chat.completion"
          respCreated := now
          respModel := modelName
          choiceIndex := 0
          message :=
            { msgRole := chars "assistant"
              msgContent := remove_function_call_block responseContent
              msgFunctionCall :=
                some { fcName := functionName, fcArguments := pyJsonDumpsOpt functionArgs } }
          finishReason := chars "stop"
          promptTokens := -1
          completionTokens := -1
          totalTokens := -1 }
    else
      .ok
        { respId := chars "chatcmpl-" ++ chatId
          respObject := chars "chat.completion"
          respCreated := now
          respModel := modelName
          choiceIndex := 0
          message :=
            { msgRole := chars "assistant"
              msgContent := responseContent
              msgFunctionCall := none }
          finishReason := chars "stop"
          promptTokens := -1
          completionTokens := -1
          totalTokens := -1 }

/-- The HTTP outcome of the response-construction stage of
`chat_completions`: an uncaught exception is caught by the handler's
generic `except Exception` clause and answered with status 500
(src/api_routes.py lines 248-250). -/
def respond_from_completion (chatId modelName : Chars) (now : Int) (responseContent : Chars) :
    Nat × Option OpenAIResponse :=
  match build_openai_response chatId modelName now responseContent with
  | .ok r => (200, some r)
  | .exn _ => (500, none)

/-! ## Prompt building (src/api_routes.py lines 111-140)

With no tools declared, `generate_functions_prompt` returns the empty
string (lines 23-25), so no leading System message is injected; the claims
exercise exactly this case.  The handler first maps each incoming message
to a Claude-labelled message (`system`→`System`, `user`→`Human`,
`assistant`→`Assistant`, others skipped), then concatenates
`"<Role>: <content>\n\n"` for each labelled message. -/

/-- First loop (lines 118-126): map a request role to the Claude label. -/
def role_to_claude (role : Chars) : Option Chars :=
  if role = chars "system" then some (chars "System")
  else if role = chars "user" then some (chars "Human")
  else if role = chars "assistant" then some (chars "Assistant")
  else none

/-- First loop over all messages: keep the labelled ones in order. -/
def to_claude_messages (msgs : List (Chars × Chars)) : List (Chars × Chars) :=
  msgs.filterMap (fun m => (role_to_claude m.1).map (fun r => (r, m.2)))

/-- Second loop (lines 131-140): emit `"<Role>: <content>\n\n"` per
labelled message. -/
def prompt_of_claude_messages : List (Chars × Chars) → Chars
  | [] => []
  | (role, content) :: rest =>
    (if role = chars "System" then chars "System: " ++ content ++ chars "\n\n"
     else if role = chars "Human" then chars "Human: " ++ content ++ chars "\n\n"
     else if role = chars "Assistant" then chars "Assistant: " ++ content ++ chars "\n\n"
     else []) ++ prompt_of_claude_messages rest

/-- The prompt the handler sends when no tools are declared. -/
def build_prompt_no_tools (msgs : List (Chars × Chars)) : Chars :=
  prompt_of_claude_messages (to_claude_messages msgs)

/-- Modelled from the claim's words: the role-labelled segment
`"<Role>: <content>"` of one message, when its role is recognised. -/
def prompt_segment (m : Chars × Chars) : Option Chars :=
  (role_to_claude m.1).map (fun label => label ++ chars ": " ++ m.2)

/-- Modelled from the claim's words: the segments of all messages, in
input order. -/
def prompt_segments (msgs : List (Chars × Chars)) : List Chars :=
  msgs.filterMap prompt_segment

/-! ## Completion-fragment accumulation (src/api_routes.py lines 164-175)

The handler iterates over whatever `send_message` yields.  A dict fragment
contributes its `completion` value, else its `content` value; only a dict
with neither of those keys but an `error` key raises a `ProviderError`
(the `elif` chain gives `completion`/`content` priority).  A non-dict
fragment contributes `str(event)`. -/

/-- One value yielded by the provider iteration: a dict of string values,
or any other value, modelled by its `str()` rendering. -/
inductive ProviderEvent where
  | dict (entries : List (Chars × Chars))
  | text (s : Chars)

/-- Python `key in dict`. -/
def entriesHas (es : List (Chars × Chars)) (key : Chars) : Bool :=
  es.any (fun p => p.1 == key)

/-- Python `dict[key]` on string values (later duplicate wins, as in a
dict literal); total with default empty, used only under `entriesHas`. -/
def entriesGet : List (Chars × Chars) → Chars → Chars
  | [], _ => []
  | (k, v) :: rest, key =>
    if entriesHas rest key then entriesGet rest key
    else if k = key then v else []

/-- The message of the `ProviderError` raised for an error fragment. -/
def providerErrorMsg (es : List (Chars × Chars)) : Chars :=
  chars "Error in Claude.ai response: " ++ entriesGet es (chars "error")

/-- The accumulation loop (lines 165-175): `Except.error` models the
raised `ProviderError` message. -/
def accumulate_events (acc : Chars) : List ProviderEvent → Except Chars Chars
  | [] => .ok acc
  | .dict es :: rest =>
    if entriesHas es (chars "completion") then
      accumulate_events (acc ++ entriesGet es (chars "completion")) rest
    else if entriesHas es (chars "content") then
      accumulate_events (acc ++ entriesGet es (chars "content")) rest
    else if entriesHas es (chars "error") then .error (providerErrorMsg es)
    else accumulate_events acc rest
  | .text s :: rest => accumulate_events (acc ++ s) rest

/-- The contribution of one fragment to the accumulated completion. -/
def eventValue : ProviderEvent → Chars
  | .dict es =>
    if entriesHas es (chars "completion") then entriesGet es (chars "completion")
    else if entriesHas es (chars "content") then entriesGet es (chars "content")
    else []
  | .text s => s

/-- Modelled from the claim's words: a fragment carrying an `error` field. -/
def isErrorEvent : ProviderEvent → Bool
  | .dict es => entriesHas es (chars "error")
  | .text _ => false

/-- A fragment that actually triggers the `ProviderError` in the code: an
`error` field with neither `completion` nor `content`. -/
def isErrorOnlyEvent : ProviderEvent → Bool
  | .dict es =>
    !entriesHas es (chars "completion") && !entriesHas es (chars "content")
      && entriesHas es (chars "error")
  | .text _ => false

/-- The error message a fragment would raise. -/
def errorMessageOf : ProviderEvent → Chars
  | .dict es => providerErrorMsg es
  | .text _ => []

/-- The amended specification of the loop: fail at the first
error-only fragment, else concatenate every fragment's contribution. -/
def accumulate_events_amended_spec (evs : List ProviderEvent) : Except Chars Chars :=
  match evs.find? isErrorOnlyEvent with
  | some e => .error (errorMessageOf e)
  | none => .ok ((evs.map eventValue).flatten)

/-- Modelled from the claim's words: fail as soon as any fragment carries
an `error` field, else concatenate the contributions. -/
def accumulate_events_claim_spec (evs : List ProviderEvent) : Except Chars Chars :=
  match evs.find? isErrorEvent with
  | some e => .error (errorMessageOf e)
  | none => .ok ((evs.map eventValue).flatten)

/-- The post-send portion of `chat_completions`: accumulate the fragments
(`ProviderError` is answered with 500, lines 239-241), then build the
response from the accumulated completion text. -/
def chat_completions_result (chatId modelName : Chars) (now : Int)
    (evs : List ProviderEvent) : Nat × Option OpenAIResponse :=
  match accumulate_events [] evs with
  | .error _ => (500, none)
  | .ok content => respond_from_completion chatId modelName now content

/-! ## Authentication check (src/auth_routes.py lines 7-20)

Flask's `before_request` hook: `OPTIONS` requests are answered 204
immediately; otherwise, when the request's endpoint is not in the exempt
list, a missing (or empty, hence falsy) stored session key is answered
401 before the endpoint's handler runs.  A Flask endpoint name defaults to
the view function's name: the `/config` route's view function is
`config_page` (line 144), so its endpoint is the string `config_page`. -/

/-- The literal exempt list from line 15. -/
def auth_exempt_endpoints : List Chars :=
  [chars "login", chars "config", chars "index", chars "check_login"]

/-- Endpoint names of the registered routes (view function names), from
src/auth_routes.py and src/api_routes.py. -/
def endpoint_of_route (path : Chars) : Option Chars :=
  if path = chars "/" then some (chars "index")
  else if path = chars "/login" then some (chars "login")
  else if path = chars "/check_login" then some (chars "check_login")
  else if path = chars "/config" then some (chars "config_page")
  else if path = chars "/v1/chat/completions" then some (chars "chat_completions")
  else if path = chars "/v1/models" then some (chars "list_models")
  else if path = chars "/list_chats" then some (chars "list_chats")
  else if path = chars "/list_projects" then some (chars "list_projects")
  else if path = chars "/list_organizations" then some (chars "list_organizations")
  else if path = chars "/test_api" then some (chars "test_api")
  else none

/-- `check_auth`: `some (status, body)` is a short-circuit response,
`none` lets the endpoint handler run. -/
def check_auth (method endpoint : Chars) (sessionKey : Option Chars) :
    Option (Nat × Chars) :=
  if method = chars "OPTIONS" then some (204, [])
  else if auth_exempt_endpoints.contains endpoint then none
  else
    match sessionKey with
    | none => some (401, chars "Not authenticated. Please log in first.")
    | some k =>
      if k = [] then some (401, chars "Not authenticated. Please log in first.")
      else none

/-! ## Login (src/auth_routes.py lines 67-106)

Modelled from the spec for the store itself: the `FileConfigManager`
session-key store is not under src/; per spec section 2 it persists a
session key with an expiry, and reading returns what was stored.  The
login handler's control flow is embedded from src/auth_routes.py: the key
is stored with a 24-hour expiry before verification, and no branch removes
it; verification failure or an empty organization list answers 401. -/

/-- The session/config store state. -/
structure SessionStore where
  sessionKey : Option (Chars × Int)
  activeOrgId : Option Chars

/-- `config.get_session_key`: the stored key, expiry ignored by callers. -/
def get_session_key (st : SessionStore) : Option Chars :=
  st.sessionKey.map Prod.fst

/-- `POST /login`: `formKey` is the submitted key, `orgsResult` the outcome
of `claude_provider.get_organizations()` (a list of `(id, name)` pairs, or
a raised exception).  Returns the new store state and the HTTP status. -/
def login_post (st : SessionStore) (now : Int) (formKey : Chars)
    (orgsResult : Except Chars (List (Chars × Chars))) : SessionStore × Nat :=
  if formKey = [] then (st, 400)
  else
    let st1 : SessionStore := { st with sessionKey := some (formKey, now + 86400) }
    match orgsResult with
    | .ok [] => (st1, 401)
    | .ok (org :: _) => ({ st1 with activeOrgId := some org.1 }, 200)
    | .error _ => (st1, 401)

/-! ## HTTP 429 handling (src/src/claudesync/providers/claude_ai.py lines 109-121)

On 429 the handler parses the response body, digs out
`error.message` (itself a JSON document) and its `resetsAt` timestamp,
and raises a `ProviderError` naming the formatted reset time.  `KeyError`
and `json.JSONDecodeError` fall back to a generic message naming the parse
failure; subscripting a non-dict raises an uncaught `TypeError`.  The code
formats the time in the server's local timezone via `astimezone()`; the
timezone is an environment detail, modelled here as UTC. -/

/-- Python subscription `value[key]` on a parsed JSON value. -/
inductive PyLookup where
  | found (v : JsonValue)
  | keyError (key : Chars)
  | typeError

/-- `value[key]`: dict lookup may raise `KeyError` (caught at line 118);
subscripting any non-dict with a string key raises `TypeError` (uncaught). -/
def pyIndex (v : JsonValue) (key : Chars) : PyLookup :=
  match v with
  | .jobj ms =>
    match objGet ms key with
    | some w => .found w
    | none => .keyError key
  | _ => .typeError

/-- `str(KeyError(key))` is the quoted key. -/
def keyErrorDesc (key : Chars) : Chars := '\x27' :: key ++ ['\x27']

/-- Description standing for `str` of a `json.JSONDecodeError`; Python's
text carries a position, a detail no claim relies on. -/
def jsonDecodeErrorDesc : Chars := chars "JSONDecodeError"

/-- Description of the modelled uncaught `TypeError`. -/
def typeErrorDesc : Chars := chars "TypeError: value is not subscriptable or not a timestamp"

/-- The fallback `ProviderError` message of line 119. -/
def msg429Fallback (desc : Chars) : Chars :=
  chars "HTTP 429: Too Many Requests. Failed to parse error response: " ++ desc

/-- Day names for `%a`, indexed with Sunday as 0. -/
def dayNames : List Chars :=
  [chars "Sun", chars "Mon", chars "Tue", chars "Wed", chars "Thu", chars "Fri", chars "Sat"]

/-- Month names for `%b`, January first. -/
def monthNames : List Chars :=
  [chars "Jan", chars "Feb", chars "Mar", chars "Apr", chars "May", chars "Jun",
    chars "Jul", chars "Aug", chars "Sep", chars "Oct", chars "Nov", chars "Dec"]

/-- Two-digit zero-padded decimal rendering. -/
def twoDigits (n : Nat) : Chars :=
  [Char.ofNat (48 + n / 10 % 10), Char.ofNat (48 + n % 10)]

/-- `strftime(pattern, utc_datetime_of(t))` for the pattern
`%a %b %d %Y %H:%M:%S %Z%z`, computed with the standard civil-from-days
conversion. -/
def formatResetTime (t : Int) : Chars :=
  let days : Int := Int.fdiv t 86400
  let secs : Nat := (Int.fmod t 86400).toNat
  let z : Int := days + 719468
  let era : Int := Int.fdiv z 146097
  let doe : Nat := (z - era * 146097).toNat
  let yoe : Nat := (doe - doe / 1460 + doe / 36524 - doe / 146096) / 365
  let y0 : Int := (yoe : Int) + era * 400
  let doy : Nat := doe - (365 * yoe + yoe / 4 - yoe / 100)
  let mp : Nat := (5 * doy + 2) / 153
  let d : Nat := doy - (153 * mp + 2) / 5 + 1
  let m : Nat := if mp < 10 then mp + 3 else mp - 9
  let y : Int := if m ≤ 2 then y0 + 1 else y0
  let wd : Nat := (Int.fmod (days + 4) 7).toNat
  (dayNames.getD wd []) ++ [' '] ++ (monthNames.getD (m - 1) []) ++ [' ']
    ++ twoDigits d ++ [' '] ++ (toString y).data ++ [' ']
    ++ twoDigits (secs / 3600) ++ [':'] ++ twoDigits (secs / 60 % 60) ++ [':']
    ++ twoDigits (secs % 60) ++ [' '] ++ chars "UTC+0000"

/-- The integer part of a float lexeme, for `datetime.fromtimestamp` on a
float `resetsAt`; sub-second precision is a floating-point detail outside
the embedding's scope, and no claim exercises this branch. -/
def floatLexIntPart (lex : Chars) : Int :=
  match lex with
  | '-' :: rest => -(Int.ofNat (digitsToNat (rest.takeWhile isDigitCh)))
  | _ => Int.ofNat (digitsToNat (lex.takeWhile isDigitCh))

/-- The success message of line 117. -/
def msg429Reset (t : Int) : Chars :=
  chars "Message limit exceeded. Try again after " ++ formatResetTime t

/-- The `ProviderError` message raised by `handle_http_error` for a 429
response with body `contentStr`; `.exn` models an uncaught exception. -/
def handle_429_message (contentStr : Chars) : PyOutcome Chars :=
  match json_loads contentStr with
  | none => .ok (msg429Fallback jsonDecodeErrorDesc)
  | some errorData =>
    match pyIndex errorData (chars "error") with
    | .typeError => .exn typeErrorDesc
    | .keyError k => .ok (msg429Fallback (keyErrorDesc k))
    | .found errVal =>
      match pyIndex errVal (chars "message") with
      | .typeError => .exn typeErrorDesc
      | .keyError k => .ok (msg429Fallback (keyErrorDesc k))
      | .found msgVal =>
        match msgVal with
        | .jstr msgStr =>
          match json_loads msgStr with
          | none => .ok (msg429Fallback jsonDecodeErrorDesc)
          | some inner =>
            match pyIndex inner (chars "resetsAt") with
            | .typeError => .exn typeErrorDesc
            | .keyError k => .ok (msg429Fallback (keyErrorDesc k))
            | .found resetsAtVal =>
              match resetsAtVal with
              | .jint t => .ok (msg429Reset t)
              | .jbool b => .ok (msg429Reset (if b then 1 else 0))
              | .jfloat lex => .ok (msg429Reset (floatLexIntPart lex))
              | _ => .exn typeErrorDesc
        | _ => .exn typeErrorDesc

/-! ## Concrete texts used by the theorems -/

/-- The spec's worked example completion text. -/
def exampleCompletion : Chars :=
  chars "Hello\n```function\n\x7b\"name\":\"foo\",\"arguments\":\x7b\"x\":1\x7d\x7d\n```\nBye"

/-- The interior of the example's fenced block. -/
def exampleInterior : Chars := chars "\x7b\"name\":\"foo\",\"arguments\":\x7b\"x\":1\x7d\x7d"

/-- A completion text containing two fenced function blocks. -/
def twoBlocksText : Chars := chars "```function\nA\n```\nmid\n```function\nB\n```"

/-- A completion whose fenced block is a JSON object without a `name`. -/
def noNameBlock : Chars := chars "```function\n\x7b\"arguments\": \x7b\"x\": 1\x7d\x7d\n```"

/-- A completion whose fenced block is valid JSON but not an object. -/
def numberBlock : Chars := chars "```function\n5\n```"

/-- A provider fragment carrying both a completion and an error field. -/
def bothKeysEvent : ProviderEvent :=
  .dict [(chars "completion", chars "x"), (chars "error", chars "boom")]

/-- A 429 body with a parseable `resetsAt` timestamp. -/
def rateLimitBody : Chars :=
  chars "\x7b\"error\": \x7b\"message\": \"\x7b\\\"resetsAt\\\": 0\x7d\"\x7d\x7d"

/-! ## Helper lemmas for the prompt-translation claim -/

theorem prompt_cons_label (label c : Chars) (L : List (Chars × Chars))
    (h : label = chars "System" ∨ label = chars "Human" ∨ label = chars "Assistant") :
    prompt_of_claude_messages ((label, c) :: L) =
      (label ++ chars ": " ++ c ++ chars "\n\n") ++ prompt_of_claude_messages L := by
  rcases h with rfl | rfl | rfl
  · simp only [prompt_of_claude_messages, if_true]
    simp only [List.append_assoc]
    rfl
  · simp only [prompt_of_claude_messages, if_true]
    rw [if_neg (by decide)]
    simp only [List.append_assoc]
    rfl
  · simp only [prompt_of_claude_messages, if_true]
    rw [if_neg (by decide), if_neg (by decide)]
    simp only [List.append_assoc]
    rfl

theorem role_to_claude_cases (r label : Chars) (h : role_to_claude r = some label) :
    label = chars "System" ∨ label = chars "Human" ∨ label = chars "Assistant" := by
  unfold role_to_claude at h
  split_ifs at h with h1 h2 h3
  · exact Or.inl (Option.some.inj h).symm
  · exact Or.inr (Or.inl (Option.some.inj h).symm)
  · exact Or.inr (Or.inr (Option.some.inj h).symm)

theorem build_prompt_flatten (msgs : List (Chars × Chars)) :
    build_prompt_no_tools msgs =
      ((prompt_segments msgs).map (fun seg => seg ++ chars "\n\n")).flatten := by
  induction msgs with
  | nil => rfl
  | cons m ms ih =>
    obtain ⟨r, c⟩ := m
    cases hr : role_to_claude r with
    | none =>
      have h1 : to_claude_messages ((r, c) :: ms) = to_claude_messages ms := by
        unfold to_claude_messages
        rw [List.filterMap_cons]
        simp [hr]
      have h2 : prompt_segments ((r, c) :: ms) = prompt_segments ms := by
        unfold prompt_segments
        rw [List.filterMap_cons]
        simp [prompt_segment, hr]
      unfold build_prompt_no_tools
      rw [h1, h2]
      exact ih
    | some label =>
      have h1 : to_claude_messages ((r, c) :: ms) = (label, c) :: to_claude_messages ms := by
        unfold to_claude_messages
        rw [List.filterMap_cons]
        simp [hr]
      have h2 : prompt_segments ((r, c) :: ms) =
          (label ++ chars ": " ++ c) :: prompt_segments ms := by
        unfold prompt_segments
        rw [List.filterMap_cons]
        simp [prompt_segment, hr]
      unfold build_prompt_no_tools
      rw [h1, h2, prompt_cons_label label c _ (role_to_claude_cases r label hr)]
      simp only [List.map_cons, List.flatten_cons]
      exact congrArg (fun t => (label ++ chars ": " ++ c ++ chars "\n\n") ++ t) ih

theorem intercalate_cons₂ (sep a b : Chars) (l : List Chars) :
    List.intercalate sep (a :: b :: l) = a ++ sep ++ List.intercalate sep (b :: l) := by
  simp [List.intercalate, List.intersperse, List.append_assoc]

theorem flatten_append_sep (sep : Chars) (l : List Chars) :
    (l.map (fun x => x ++ sep)).flatten =
      List.intercalate sep l ++ (if l = [] then [] else sep) := by
  induction l with
  | nil => simp [List.intercalate]
  | cons a l ih =>
    cases l with
    | nil => simp [List.intercalate, List.intersperse]
    | cons b l2 =>
      rw [List.map_cons, List.flatten_cons, ih, intercalate_cons₂]
      simp [List.append_assoc]

/-! ## Claim theorems -/

/-- Claim C1 (corrected): for a request with no tools declared, the prompt
contains exactly one segment `"<Role>: <content>"` per recognised-role
message, in input order, with `system`→`System`, `user`→`Human`,
`assistant`→`Assistant` and other roles contributing nothing — but the
segments are not merely joined with a blank-line separator: each segment,
the last included, is followed by one, so a trailing separator remains. -/
theorem c1_prompt_translation (msgs : List (Chars × Chars)) :
    build_prompt_no_tools msgs =
      List.intercalate (chars "\n\n") (prompt_segments msgs)
        ++ (if prompt_segments msgs = [] then [] else chars "\n\n") := by
  rw [build_prompt_flatten, flatten_append_sep]

/-- Claim C1 counterexample: on a single user message the prompt is
`"Human: Hi\n\n"`, not the plain blank-line join `"Human: Hi"`, so the
prompt is not the segments joined with a blank-line separator. -/
theorem c1_counterexample :
    build_prompt_no_tools [(chars "user", chars "Hi")] ≠
      List.intercalate (chars "\n\n") (prompt_segments [(chars "user", chars "Hi")]) := by
  decide

/-- Claim C2 (corrected): `remove_function_call_block` removes every
non-overlapping match of the fenced pattern, not only the first; when the
first match is the only one it removes exactly that block (fence markers
included) and trims, with no match it returns the trimmed input, and on
the spec's example it returns `"Hello\n\nBye"`. -/
theorem c2_strip_function_block (s : Chars) :
    (findMatch s = none → remove_function_call_block s = pyStrip s) ∧
    (∀ pre mid rest, findMatch s = some (pre, mid, rest) → findMatch rest = none →
      remove_function_call_block s = pyStrip (pre ++ rest)) ∧
    remove_function_call_block exampleCompletion = chars "Hello\n\nBye" := by
  refine ⟨?_, ?_, by rfl⟩
  · intro h
    unfold remove_function_call_block
    rw [removeAllMatches_of_none h]
  · intro pre mid rest h1 h2
    unfold remove_function_call_block
    rw [removeAllMatches_of_some h1, removeAllMatches_of_none h2]

/-- Claim C2 witness: the example text matches with prefix `"Hello\n"`,
interior the JSON payload and suffix `"\nBye"`, and stripping yields the
trimmed remainder. -/
theorem c2_strip_function_block_witness :
    remove_function_call_block exampleCompletion = pyStrip (chars "Hello\n" ++ chars "\nBye") :=
  (c2_strip_function_block exampleCompletion).2.1 (chars "Hello\n") exampleInterior
    (chars "\nBye") (by rfl) (by rfl)

/-- Claim C2 counterexample: on a text with two fenced blocks, `re.sub`
removes both, while removing only the first match — the one
`parse_claude_response` uses — would leave the second in place. -/
theorem c2_counterexample :
    remove_function_call_block twoBlocksText ≠ stripFirstMatchOnly twoBlocksText := by
  decide

/-- Claim C3 (confirmed): when the text has no fenced block, or the first
block's interior is not valid JSON, `parse_claude_response` returns the
absent result `(None, None)` and no exception escapes. -/
theorem c3_parse_best_effort (t : Chars) :
    (findMatch t = none → parse_claude_response t = .ok (none, none)) ∧
    (∀ pre mid rest, findMatch t = some (pre, mid, rest) → json_loads mid = none →
      parse_claude_response t = .ok (none, none)) := by
  constructor
  · intro h
    unfold parse_claude_response
    rw [h]
  · intro pre mid rest h1 h2
    unfold parse_claude_response
    rw [h1]
    dsimp only
    rw [h2]

/-- Claim C3 witness: a block with malformed JSON and a block-free text
both give the absent result. -/
theorem c3_parse_best_effort_witness :
    parse_claude_response (chars "A\n```function\nnot json\n```\nB") = .ok (none, none) ∧
    parse_claude_response (chars "no block here") = .ok (none, none) :=
  ⟨(c3_parse_best_effort _).2 (chars "A\n") (chars "not json") (chars "\nB") (by rfl) (by rfl),
   (c3_parse_best_effort _).1 (by rfl)⟩

/-- Claim C4 (corrected): the response never carries `function_call`
together with the raw unstripped text — but a function call is only
detected when the parsed `name` is truthy.  When the block's `name` field
is absent (Python `None`) or otherwise falsy, the handler takes the
no-call branch: content is the full raw text and no `function_call` field
is present, contrary to the claim's parenthetical. -/
theorem c4_function_call_content (chatId modelName : Chars) (now : Int) (content : Chars)
    (fn args : Option JsonValue)
    (h : parse_claude_response content = .ok (fn, args)) :
    ∃ r, build_openai_response chatId modelName now content = .ok r ∧
      (pyTruthy fn = true →
        r.message.msgContent = remove_function_call_block content ∧
        r.message.msgFunctionCall = some ⟨fn, pyJsonDumpsOpt args⟩) ∧
      (pyTruthy fn = false →
        r.message.msgContent = content ∧ r.message.msgFunctionCall = none) ∧
      (r.message.msgFunctionCall ≠ none →
        r.message.msgContent = remove_function_call_block content) := by
  unfold build_openai_response
  rw [h]
  cases hft : pyTruthy fn with
  | true =>
    dsimp only
    rw [if_pos hft]
    exact ⟨_, rfl, fun _ => ⟨rfl, rfl⟩, fun hf => absurd hf (by decide), fun _ => rfl⟩
  | false =>
    dsimp only
    rw [if_neg (by simp [hft])]
    exact ⟨_, rfl, fun ht => absurd ht (by decide), fun _ => ⟨rfl, rfl⟩,
      fun hc => absurd rfl hc⟩

/-- Claim C4 witness: on the example completion the parsed name `"foo"` is
truthy, so the content is the stripped text and `function_call` carries
the re-serialised arguments. -/
theorem c4_function_call_content_witness :
    ∃ r, build_openai_response (chars "abc") (chars "m") 5 exampleCompletion = .ok r ∧
      r.message.msgContent = remove_function_call_block exampleCompletion ∧
      r.message.msgFunctionCall =
        some ⟨some (.jstr (chars "foo")),
          pyJsonDumpsOpt (some (.jobj [(chars "x", .jint 1)]))⟩ := by
  obtain ⟨r, h1, h2, -, -⟩ :=
    c4_function_call_content (chars "abc") (chars "m") 5 exampleCompletion
      (some (.jstr (chars "foo"))) (some (.jobj [(chars "x", .jint 1)])) (by rfl)
  obtain ⟨h3, h4⟩ := h2 (by rfl)
  exact ⟨r, h1, h3, h4⟩

/-- Claim C4 counterexample: a fenced block that parses to an object with
no `name` field is detected by `parse_claude_response` (name `None`,
arguments present), yet the response carries no `function_call` and its
content is the raw text, fenced block included — the claim instead
requires a `function_call` field and stripped content in this case. -/
theorem c4_counterexample :
    parse_claude_response noNameBlock =
      .ok (none, some (.jobj [(chars "x", .jint 1)])) ∧
    (pyOk? (build_openai_response (chars "c") (chars "m") 0 noNameBlock)).map
        (fun r => (r.message.msgContent, r.message.msgFunctionCall.isSome)) =
      some (noNameBlock, false) ∧
    remove_function_call_block noNameBlock ≠ noNameBlock := by
  refine ⟨by rfl, by rfl, by decide⟩

/-- Claim C5 (confirmed): every response the handler constructs has
`finish_reason` `"stop"`, all three usage counts `-1`, and id
`"chatcmpl-" ++ chatId`. -/
theorem c5_fixed_fields (chatId modelName : Chars) (now : Int) (content : Chars)
    (r : OpenAIResponse)
    (h : build_openai_response chatId modelName now content = .ok r) :
    r.finishReason = chars "stop" ∧ r.promptTokens = -1 ∧ r.completionTokens = -1 ∧
      r.totalTokens = -1 ∧ r.respId = chars "chatcmpl-" ++ chatId := by
  unfold build_openai_response at h
  cases hp : parse_claude_response content with
  | exn d =>
    rw [hp] at h
    exact PyOutcome.noConfusion h
  | ok p =>
    obtain ⟨fn, args⟩ := p
    rw [hp] at h
    dsimp only at h
    by_cases hft : pyTruthy fn = true
    · rw [if_pos hft] at h
      injection h with h2
      exact h2 ▸ ⟨rfl, rfl, rfl, rfl, rfl⟩
    · rw [if_neg hft] at h
      injection h with h2
      exact h2 ▸ ⟨rfl, rfl, rfl, rfl, rfl⟩

/-- Claim C5 witness: the plain completion `"Hello there"` yields a
response with the fixed fields. -/
theorem c5_fixed_fields_witness :
    ∃ r, build_openai_response (chars "42") (chars "m") 7 (chars "Hello there") = .ok r ∧
      r.finishReason = chars "stop" ∧ r.promptTokens = -1 ∧ r.completionTokens = -1 ∧
      r.totalTokens = -1 ∧ r.respId = chars "chatcmpl-" ++ chars "42" := by
  obtain ⟨r, hr⟩ : ∃ r,
      build_openai_response (chars "42") (chars "m") 7 (chars "Hello there") = .ok r :=
    ⟨_, rfl⟩
  exact ⟨r, hr, c5_fixed_fields (chars "42") (chars "m") 7 (chars "Hello there") r hr⟩

/-- Claim C6 (code bug): the `/config` route's Flask endpoint is the view
function name `config_page`, which is not in the literal exempt list
`[login, config, index, check_login]` — the list's `config` entry matches
no endpoint — so an unauthenticated non-OPTIONS request to `/config` is
answered 401 by `check_auth` before the handler runs, although the list
plainly intends to exempt it. -/
theorem c6_config_endpoint_not_exempt :
    endpoint_of_route (chars "/config") = some (chars "config_page") ∧
    auth_exempt_endpoints.contains (chars "config_page") = false ∧
    check_auth (chars "GET") (chars "config_page") none =
      some (401, chars "Not authenticated. Please log in first.") := by
  refine ⟨by rfl, by decide, by rfl⟩

theorem accumulate_events_eq_spec_aux (evs : List ProviderEvent) : ∀ acc : Chars,
    accumulate_events acc evs =
      (accumulate_events_amended_spec evs).map (fun r => acc ++ r) := by
  induction evs with
  | nil =>
    intro acc
    simp [accumulate_events, accumulate_events_amended_spec, Except.map, List.find?]
  | cons e rest ih =>
    intro acc
    cases e with
    | dict es =>
      cases h1 : entriesHas es (chars "completion") with
      | true =>
        have hval : eventValue (.dict es) = entriesGet es (chars "completion") := by
          simp [eventValue, h1]
        have hperr : isErrorOnlyEvent (.dict es) = false := by
          simp [isErrorOnlyEvent, h1]
        unfold accumulate_events
        rw [if_pos h1, ih]
        unfold accumulate_events_amended_spec
        rw [List.find?]
        rw [hperr]
        simp only [List.map_cons, List.flatten_cons, hval]
        cases hfind : List.find? isErrorOnlyEvent rest with
        | none => simp [Except.map, List.append_assoc]
        | some f => simp [Except.map]
      | false =>
        cases h2 : entriesHas es (chars "content") with
        | true =>
          have hval : eventValue (.dict es) = entriesGet es (chars "content") := by
            simp [eventValue, h1, h2]
          have hperr : isErrorOnlyEvent (.dict es) = false := by
            simp [isErrorOnlyEvent, h2]
          unfold accumulate_events
          rw [if_neg (by simp [h1]), if_pos h2, ih]
          unfold accumulate_events_amended_spec
          rw [List.find?]
          rw [hperr]
          simp only [List.map_cons, List.flatten_cons, hval]
          cases hfind : List.find? isErrorOnlyEvent rest with
          | none => simp [Except.map, List.append_assoc]
          | some f => simp [Except.map]
        | false =>
          cases h3 : entriesHas es (chars "error") with
          | true =>
            have hperr : isErrorOnlyEvent (.dict es) = true := by
              simp [isErrorOnlyEvent, h1, h2, h3]
            unfold accumulate_events
            rw [if_neg (by simp [h1]), if_neg (by simp [h2]), if_pos h3]
            unfold accumulate_events_amended_spec
            rw [List.find?]
            rw [hperr]
            rfl
          | false =>
            have hval : eventValue (.dict es) = [] := by
              simp [eventValue, h1, h2]
            have hperr : isErrorOnlyEvent (.dict es) = false := by
              simp [isErrorOnlyEvent, h3]
            unfold accumulate_events
            rw [if_neg (by simp [h1]), if_neg (by simp [h2]), if_neg (by simp [h3]), ih]
            unfold accumulate_events_amended_spec
            rw [List.find?]
            rw [hperr]
            simp only [List.map_cons, List.flatten_cons, hval, List.nil_append]
    | text s =>
      unfold accumulate_events
      rw [ih]
      unfold accumulate_events_amended_spec
      rw [List.find?]
      have hperr : isErrorOnlyEvent (.text s) = false := rfl
      rw [hperr]
      simp only [List.map_cons, List.flatten_cons, eventValue]
      cases hfind : List.find? isErrorOnlyEvent rest with
      | none => simp [Except.map, List.append_assoc]
      | some f => simp [Except.map]

/-- Claim C7 (corrected): the handler accumulates completion fragments by
concatenation in delivery order, taking a dict fragment's `completion`
field, else its `content` field, and uses the accumulated string as the
completion text (a raised `ProviderError` is answered 500) — but the
`elif` chain raises only for a fragment whose dict has an `error` field
and neither `completion` nor `content`, not "as soon as a fragment
carries an error field". -/
theorem c7_accumulation :
    (∀ evs, accumulate_events [] evs = accumulate_events_amended_spec evs) ∧
    (∀ chatId modelName now evs m, accumulate_events [] evs = .error m →
      chat_completions_result chatId modelName now evs = (500, none)) ∧
    (∀ chatId modelName now evs content, accumulate_events [] evs = .ok content →
      chat_completions_result chatId modelName now evs =
        respond_from_completion chatId modelName now content) := by
  refine ⟨fun evs => ?_, fun _ _ _ evs m h => ?_, fun _ _ _ evs content h => ?_⟩
  · rw [accumulate_events_eq_spec_aux]
    cases accumulate_events_amended_spec evs with
    | error m => rfl
    | ok r => simp [Except.map]
  · unfold chat_completions_result
    rw [h]
  · unfold chat_completions_result
    rw [h]

/-- Claim C7 witness: a plain text fragment accumulates to itself; a lone
error fragment is answered 500; an ok accumulation feeds the response
builder. -/
theorem c7_accumulation_witness :
    accumulate_events [] [ProviderEvent.text (chars "Hi")] =
      accumulate_events_amended_spec [ProviderEvent.text (chars "Hi")] ∧
    chat_completions_result (chars "c") (chars "m") 0
      [ProviderEvent.dict [(chars "error", chars "boom")]] = (500, none) ∧
    chat_completions_result (chars "c") (chars "m") 0 [ProviderEvent.text (chars "Hi")] =
      respond_from_completion (chars "c") (chars "m") 0 (chars "Hi") :=
  ⟨c7_accumulation.1 _, c7_accumulation.2.1 _ _ _ _ _ (by rfl),
   c7_accumulation.2.2 _ _ _ _ _ (by rfl)⟩

/-- Claim C7 counterexample: a fragment carrying both `completion` and
`error` contributes its completion and raises nothing, while the claim's
rule — raise as soon as a fragment carries an `error` field — would
raise a `ProviderError`. -/
theorem c7_counterexample :
    accumulate_events [] [bothKeysEvent] = .ok (chars "x") ∧
    accumulate_events_claim_spec [bothKeysEvent] =
      .error (chars "Error in Claude.ai response: boom") :=
  ⟨rfl, rfl⟩

/-- Claim C8 (corrected): for a 429 response whose body carries a
parseable `resetsAt` timestamp, the raised `ProviderError` surfaces the
formatted reset time — but when the body cannot be parsed, the error is
the generic reformatted message naming the parse failure, not the
upstream rate-limit response reported as-is. -/
theorem c8_rate_limit_message :
    (∀ content v errv s inner t,
      json_loads content = some v →
      pyIndex v (chars "error") = .found errv →
      pyIndex errv (chars "message") = .found (.jstr s) →
      json_loads s = some inner →
      pyIndex inner (chars "resetsAt") = .found (.jint t) →
      handle_429_message content = .ok (msg429Reset t)) ∧
    (∀ content, json_loads content = none →
      handle_429_message content = .ok (msg429Fallback jsonDecodeErrorDesc)) := by
  constructor
  · intro content v errv s inner t h1 h2 h3 h4 h5
    unfold handle_429_message
    rw [h1]
    dsimp only
    rw [h2]
    dsimp only
    rw [h3]
    dsimp only
    rw [h4]
    dsimp only
    rw [h5]
  · intro content h
    unfold handle_429_message
    rw [h]

/-- Claim C8 witness: a body carrying `resetsAt` 0 yields the formatted
reset time, and an unparseable body yields the generic fallback. -/
theorem c8_rate_limit_message_witness :
    handle_429_message rateLimitBody = .ok (msg429Reset 0) ∧
    handle_429_message (chars "not json") = .ok (msg429Fallback jsonDecodeErrorDesc) :=
  ⟨c8_rate_limit_message.1 rateLimitBody
      (.jobj [(chars "error",
        .jobj [(chars "message", .jstr (chars "\x7b\"resetsAt\": 0\x7d"))])])
      (.jobj [(chars "message", .jstr (chars "\x7b\"resetsAt\": 0\x7d"))])
      (chars "\x7b\"resetsAt\": 0\x7d")
      (.jobj [(chars "resetsAt", .jint 0)]) 0
      (by rfl) (by rfl) (by rfl) (by rfl) (by rfl),
   c8_rate_limit_message.2 _ (by rfl)⟩

/-- Claim C8 counterexample: for the unparseable body `"not json"` the
raised message is the generic reformatted fallback, which differs from
the upstream response — it is not reported as-is. -/
theorem c8_counterexample :
    handle_429_message (chars "not json") = .ok (msg429Fallback jsonDecodeErrorDesc) ∧
    msg429Fallback jsonDecodeErrorDesc ≠ chars "not json" :=
  ⟨rfl, by decide⟩

/-- Claim C9 (confirmed): when the first fenced block's interior is valid
JSON but not an object, `parse_claude_response` raises an uncaught
exception (only `json.JSONDecodeError` is caught), and the
chat-completions request is answered 500. -/
theorem c9_non_object_block (t pre mid rest : Chars) (v : JsonValue)
    (h1 : findMatch t = some (pre, mid, rest)) (h2 : json_loads mid = some v)
    (h3 : v.isObj = false) :
    parse_claude_response t = .exn attributeErrorDesc ∧
    (∀ chatId modelName now,
      respond_from_completion chatId modelName now t = (500, none)) := by
  have hp : parse_claude_response t = .exn attributeErrorDesc := by
    unfold parse_claude_response
    rw [h1]
    dsimp only
    rw [h2]
    cases v with
    | jobj ms => simp [JsonValue.isObj] at h3
    | jnull => rfl
    | jbool b => rfl
    | jint n => rfl
    | jfloat lex => rfl
    | jstr s => rfl
    | jarr l => rfl
  refine ⟨hp, fun chatId modelName now => ?_⟩
  unfold respond_from_completion build_openai_response
  rw [hp]

/-- Claim C9 witness: the block interior `5` parses as a JSON number, the
`.get` call raises, and the request is answered 500. -/
theorem c9_non_object_block_witness :
    parse_claude_response numberBlock = .exn attributeErrorDesc ∧
    respond_from_completion (chars "c") (chars "m") 0 numberBlock = (500, none) := by
  obtain ⟨h1, h2⟩ :=
    c9_non_object_block numberBlock [] (chars "5") [] (.jint 5) (by rfl) (by rfl) (by rfl)
  exact ⟨h1, h2 _ _ _⟩

theorem check_auth_passes (key : Chars) (hk : key ≠ []) (endpoint method : Chars)
    (hm : method ≠ chars "OPTIONS") :
    check_auth method endpoint (some key) = none := by
  unfold check_auth
  rw [if_neg hm]
  by_cases hc : auth_exempt_endpoints.contains endpoint = true
  · rw [if_pos hc]
  · rw [if_neg hc]
    dsimp only
    rw [if_neg hk]

/-- Claim C10 (confirmed): `POST /login` stores the submitted (nonempty)
session key with a 24-hour expiry before verification, and every outcome
of verification — including the 401 answers for a failed
`get_organizations` call or an empty organization list — leaves the key
stored, so any subsequent non-OPTIONS request passes `check_auth` with
that unverified key. -/
theorem c10_login_stores_unverified_key (st : SessionStore) (now : Int) (key : Chars)
    (orgs : Except Chars (List (Chars × Chars))) (hk : key ≠ []) :
    (login_post st now key orgs).1.sessionKey = some (key, now + 86400) ∧
    ((login_post st now key orgs).2 = 401 →
      ∀ endpoint method, method ≠ chars "OPTIONS" →
        check_auth method endpoint (get_session_key (login_post st now key orgs).1) = none) := by
  unfold login_post
  rw [if_neg hk]
  cases orgs with
  | error e =>
    exact ⟨rfl, fun _ ep m hm => check_auth_passes key hk ep m hm⟩
  | ok l =>
    cases l with
    | nil => exact ⟨rfl, fun _ ep m hm => check_auth_passes key hk ep m hm⟩
    | cons org os =>
      exact ⟨rfl, fun habs => absurd (show (200 : Nat) = 401 from habs) (by decide)⟩

/-- Claim C10 witness: after a login whose verification raises, the key
`"k"` is stored with expiry `now + 86400` and a guarded request passes
the auth check. -/
theorem c10_login_stores_unverified_key_witness :
    (login_post ⟨none, none⟩ 0 (chars "k") (.error (chars "boom"))).1.sessionKey =
      some (chars "k", 0 + 86400) ∧
    check_auth (chars "GET") (chars "chat_completions")
      (get_session_key (login_post ⟨none, none⟩ 0 (chars "k") (.error (chars "boom"))).1) =
      none := by
  obtain ⟨h1, h2⟩ :=
    c10_login_stores_unverified_key ⟨none, none⟩ 0 (chars "k") (.error (chars "boom"))
      (by decide)
  exact ⟨h1, h2 (by rfl) (chars "chat_completions") (chars "GET") (by decide)⟩

end ClaudeSync
